import Mathlib

/-!
# Verification of the MeshCapade SDK avatar lifecycle orchestrator

Shallow embedding of `meshcapade/avatar.py`, `meshcapade/client.py` and
`meshcapade/exceptions.py`.  Python methods become Lean functions that take
the object state and an environment (the responses the network would give,
the local file system) and return the raised exception or the result,
together with the new object state and the requests that were issued.
-/

/-- A Python value as far as the SDK's attribute setters observe it:
an `int`, a `str`, or `None`.  (`isinstance(v, int)` holds exactly for the
`int` constructor; truthiness is `int n ≠ 0`, `str s ≠ ""`, `None` falsy.) -/
inductive PyValue where
  | int (n : Int)
  | str (s : String)
  | none
deriving DecidableEq, Repr

/-- Python truthiness of a `PyValue` (`bool(v)`). -/
def PyValue.truthy : PyValue → Bool
  | .int n => n ≠ 0
  | .str s => s ≠ ""
  | .none => false

/-- The exceptions the embedded code can raise.  `validationError`,
`apiError`, `timeoutError`, `authenticationError` are the SDK's own classes
from `meshcapade/exceptions.py`; `httpError` is `requests.exceptions.HTTPError`
as raised by `response.raise_for_status()`; `transportError` is any other
`requests.exceptions.RequestException`; `keyError` is Python's built-in
`KeyError` from a bare `d[k]` subscript.  The constructors are distinct, so a
raised `httpError` is provably not an `apiError`. -/
inductive SDKErr where
  | validationError (msg : String)
  | apiError (msg : String)
  | timeoutError (msg : String)
  | authenticationError (msg : String)
  | httpError (status : Nat)
  | transportError (msg : String)
  | keyError (key : String)
deriving DecidableEq, Repr

/-- The mutable attributes of an `Avatar` object (`Avatar.__init__`):
`_name`, `_height`, `_weight`, `_gender` all start as `None`, and
`avatar_id` starts as `None`. -/
structure AvatarState where
  name : PyValue
  height : PyValue
  weight : PyValue
  gender : PyValue
  avatar_id : Option String
deriving DecidableEq, Repr

/-- The attribute state right after `Avatar.__init__`: everything `None`. -/
def initAvatarState : AvatarState :=
  { name := .none, height := .none, weight := .none, gender := .none,
    avatar_id := Option.none }

/-- `Avatar.name` setter: `self._name = value` with no validation at all. -/
def set_name (st : AvatarState) (value : PyValue) : Except SDKErr AvatarState :=
  .ok { st with name := value }

/-- `Avatar.height` setter: raises `ValidationError` unless
`isinstance(value, int) and value > 0`; the raise happens before the
assignment, so on failure the state is untouched. -/
def set_height (st : AvatarState) (value : PyValue) : Except SDKErr AvatarState :=
  match value with
  | .int n =>
      if n ≤ 0 then .error (.validationError "Height must be a positive integer")
      else .ok { st with height := .int n }
  | _ => .error (.validationError "Height must be a positive integer")

/-- `Avatar.weight` setter: same shape as the height setter. -/
def set_weight (st : AvatarState) (value : PyValue) : Except SDKErr AvatarState :=
  match value with
  | .int n =>
      if n ≤ 0 then .error (.validationError "Weight must be a positive integer")
      else .ok { st with weight := .int n }
  | _ => .error (.validationError "Weight must be a positive integer")

/-- `Avatar.gender` setter: raises `ValidationError` unless
`value in ["male", "female"]`. -/
def set_gender (st : AvatarState) (value : PyValue) : Except SDKErr AvatarState :=
  if value = .str "male" ∨ value = .str "female" then
    .ok { st with gender := value }
  else
    .error (.validationError "Gender must be either 'male' or 'female'")

/-- Python `a or b` on optional strings, as used for
`api_key or API_KEY` etc.: the left operand wins when truthy
(`None` and `""` are falsy). -/
def pyOrStr (a b : Option String) : Option String :=
  match a with
  | Option.some s => if s = "" then b else Option.some s
  | Option.none => b

/-- Truthiness of an optional string (`if not self.api_key`). -/
def optStrTruthy : Option String → Bool
  | Option.some s => s ≠ ""
  | Option.none => false

/-- The configured transport state a `BaseClient` holds after construction. -/
structure ClientState where
  api_url : Option String
  api_key : Option String
deriving DecidableEq, Repr

/-- `BaseClient.__init__(api_key, api_url)`: resolves each argument against
the module-level globals `API_KEY` / `API_URL` with Python `or`, then raises
`AuthenticationError` when the resolved key is falsy.  No network request is
issued; construction only inspects local configuration. -/
def BaseClient_init (api_key api_url globalKey globalUrl : Option String) :
    Except SDKErr ClientState :=
  let url := pyOrStr api_url globalUrl
  let key := pyOrStr api_key globalKey
  if optStrTruthy key then .ok { api_url := url, api_key := key }
  else .error (.authenticationError
    "API key is not set. Please use meshcapade.set_api_key() to set your API key.")

/-- `Avatar.__init__`: runs `BaseClient.__init__` (which may raise
`AuthenticationError`) and then initializes the attribute fields. -/
def Avatar_init (api_key api_url globalKey globalUrl : Option String) :
    Except SDKErr (ClientState × AvatarState) :=
  (BaseClient_init api_key api_url globalKey globalUrl).map
    (fun c => (c, initAvatarState))

/-! ## Response shapes

The workflow traverses JSON:API-style envelopes.  Each field whose presence
the code tests (`"data" in response`, `"id" in response["data"]`,
`"links" in ...`, `"upload" in ...`) is an `Option`; a bare Python subscript
on a possibly-missing key is modelled as a `KeyError`. -/

/-- The `data` object of a create-avatar response: `id` may be absent. -/
structure CreateData where
  id : Option String
deriving DecidableEq, Repr

/-- A create-avatar response: the top-level `data` key may be absent. -/
structure CreateResp where
  data : Option CreateData
deriving DecidableEq, Repr

/-- `response["data"]["id"]` when both keys are present, else `none`. -/
def CreateResp.dataId : CreateResp → Option String :=
  fun r => r.data.bind (fun d => d.id)

/-- The `links` object of a pre-signed-URL response; `upload` may be absent. -/
structure PresignLinks where
  upload : Option String
deriving DecidableEq, Repr

/-- The `data` object of a pre-signed-URL response. -/
structure PresignData where
  id : Option String
  links : Option PresignLinks
deriving DecidableEq, Repr

/-- A pre-signed-URL response (`POST avatars/{id}/images`). -/
structure PresignResp where
  data : Option PresignData
deriving DecidableEq, Repr

/-- The upload URL, when
`"data" in r and "links" in r["data"] and "upload" in r["data"]["links"]`
all hold (the condition `_upload_images` tests before using the response). -/
def PresignResp.uploadLink : PresignResp → Option String :=
  fun r => (r.data.bind (fun d => d.links)).bind (fun l => l.upload)

/-- `presigned_data["data"]["id"]`: a bare subscript, so a missing `id`
means a Python `KeyError`, which this accessor signals with `none`. -/
def PresignResp.dataId : PresignResp → Option String :=
  fun r => r.data.bind (fun d => d.id)

/-- `os.path.basename` on POSIX paths: the part after the last slash. -/
def basename (p : String) : String :=
  (p.splitOn "/").getLastD p

/-- One entry of the `upload_results` list built by `_upload_images`.
Failed entries carry `status`, `message`, `file`; success entries also carry
`image_id` and `avatar_id` (modelled as `Option` fields left `none` on the
failed entries, where the source dict has no such keys). -/
structure UploadEntry where
  status : String
  message : String
  file : String
  image_id : Option String
  avatar_id : Option String
deriving DecidableEq, Repr

/-- The failed entry `_upload_images` appends. -/
def failedEntry (msg file : String) : UploadEntry :=
  { status := "failed", message := msg, file := file,
    image_id := Option.none, avatar_id := Option.none }

/-- The success entry `_upload_images` appends. -/
def successEntry (image_id avatar_id file : String) : UploadEntry :=
  { status := "success", message := "Image uploaded successfully",
    file := file, image_id := Option.some image_id,
    avatar_id := Option.some avatar_id }

/-- The environment the creation workflow runs against: the response to the
create-empty POST, the response to the i-th pre-signed-URL POST, the status
code the S3 PUT to a given URL returns, and the local file system. -/
structure CreateEnv where
  createResp : CreateResp
  presignResps : Nat → PresignResp
  s3Put : String → Nat
  fileExists : String → Bool
  fileBytes : String → List Nat

/-- `Avatar._create_empty_avatar` (response-processing part): when the
response has `data.id`, store it in `self.avatar_id` and return the `data`
object; otherwise raise `APIError` — the state is returned alongside so the
no-mutation-on-raise behaviour is visible. -/
def create_empty_avatar (st : AvatarState) (resp : CreateResp) :
    (Except SDKErr CreateData) × AvatarState :=
  match resp.data with
  | Option.some d =>
      match d.id with
      | Option.some theId =>
          (.ok d, { st with avatar_id := Option.some theId })
      | Option.none =>
          (.error (.apiError "Failed to create avatar: Invalid API response"), st)
  | Option.none =>
      (.error (.apiError "Failed to create avatar: Invalid API response"), st)

/-- The loop body of `Avatar._upload_images` over the path list.  `i` counts
the pre-signed-URL requests issued so far (indexing `env.presignResps`).
Returns the collected per-file results (or the raised exception) together
with the HTTP requests issued, in order.  A path whose file does not exist
is skipped with `continue` — no entry, no request.  A missing
`data.links.upload` appends a failed entry; a present upload link but a
missing `data` `id` is the bare subscript `presigned_data["data"]["id"]`,
a `KeyError` that aborts the whole method.  Otherwise the S3 PUT is issued
and a success (HTTP 200) or failed entry is appended. -/
def upload_go (env : CreateEnv) (avatar_id : String) :
    List String → Nat → (Except SDKErr (List UploadEntry)) × List String
  | [], _ => (.ok [], [])
  | p :: rest, i =>
    if env.fileExists p then
      let call := "POST avatars/" ++ avatar_id ++ "/images"
      let pr := env.presignResps i
      match pr.uploadLink with
      | Option.none =>
          let rc := upload_go env avatar_id rest (i + 1)
          (rc.1.map (fun es => failedEntry "Failed to get upload URL" (basename p) :: es),
           call :: rc.2)
      | Option.some url =>
          match pr.dataId with
          | Option.none => (.error (.keyError "id"), [call])
          | Option.some image_id =>
              let stc := env.s3Put url
              let entry :=
                if stc = 200 then successEntry image_id avatar_id (basename p)
                else failedEntry ("S3 upload failed with status code: " ++ toString stc)
                       (basename p)
              let rc := upload_go env avatar_id rest (i + 1)
              (rc.1.map (fun es => entry :: es), call :: ("PUT " ++ url) :: rc.2)
    else
      upload_go env avatar_id rest i

/-- What `Avatar._upload_images` returns: the `{"status": "skipped"}` dict
when no paths were supplied, else the `{"uploaded_images": [...]}` dict. -/
inductive UploadReturn where
  | skippedAll
  | batch (results : List UploadEntry)
deriving DecidableEq, Repr

/-- `Avatar._upload_images`: empty/`None` path list short-circuits to the
skipped dict with no request; otherwise runs the per-path loop. -/
def upload_images (env : CreateEnv) (avatar_id : String) (paths : List String) :
    (Except SDKErr UploadReturn) × List String :=
  if paths.isEmpty then (.ok .skippedAll, [])
  else
    let rc := upload_go env avatar_id paths 0
    (rc.1.map .batch, rc.2)

/-- `Avatar.create_avatar_from_image`: precondition check on the four
attributes (raising `ValidationError` before any request), then the
create-empty POST, then — only when `image_paths` is truthy — the image
uploads followed by the fit-to-images POST.  Returns the raised exception or
the avatar id, the resulting attribute state, and every HTTP request issued
in order. -/
def create_avatar_from_image (st : AvatarState) (env : CreateEnv)
    (image_paths : List String) :
    (Except SDKErr String) × AvatarState × List String :=
  if st.name = .none ∨ st.height = .none ∨ st.weight = .none ∨ st.gender = .none then
    (.error (.validationError
      ("Required properties (name, height, weight, gender) must be set before creating an avatar. "
        ++ "Use set_name(), set_height(), set_weight(), and set_gender() methods.")),
     st, [])
  else
    let createCall := "POST avatars/create/from-images"
    let ce := create_empty_avatar st env.createResp
    match ce.1 with
    | .error e => (.error e, ce.2, [createCall])
    | .ok d =>
      match d.id with
      | Option.none =>
          -- `if not avatar_data or 'id' not in avatar_data` (lines 107-108);
          -- unreachable after a successful `_create_empty_avatar`.
          (.error (.apiError "Failed to get avatar ID from API response."), ce.2, [createCall])
      | Option.some theId =>
          let st2 := { ce.2 with avatar_id := Option.some theId }
          if image_paths.isEmpty then (.ok theId, st2, [createCall])
          else
            let up := upload_images env theId image_paths
            match up.1 with
            | .error e => (.error e, st2, createCall :: up.2)
            | .ok _ =>
                let fitCall := "POST avatars/" ++ theId ++ "/fit-to-images"
                (.ok theId, st2, createCall :: (up.2 ++ [fitCall]))

/-- Python `a or b` on `PyValue`s (`name or self.name`). -/
def pyOrV (a b : PyValue) : PyValue := if a.truthy then a else b

/-- `Avatar.create_avatar_from_measurements`: resolves `name`/`gender`
against the instance attributes with Python `or`, validates them, defaults
the measurements dict to `{Height, Weight}` from the instance, then issues
the create POST and binds `avatar_id` exactly when the response has
`data.id`.  An empty `measurements` list models both `None` and `{}`
(both falsy). -/
def create_avatar_from_measurements (st : AvatarState) (resp : CreateResp)
    (name gender : PyValue) (measurements : List (String × PyValue)) :
    (Except SDKErr String) × AvatarState × List String :=
  let avatar_name := pyOrV name st.name
  let avatar_gender := pyOrV gender st.gender
  if avatar_name.truthy = false then
    (.error (.validationError "Avatar name is required"), st, [])
  else if avatar_gender.truthy = false then
    (.error (.validationError "Gender is required"), st, [])
  else if avatar_gender = .str "male" ∨ avatar_gender = .str "female" then
    let mres : Except SDKErr (List (String × PyValue)) :=
      if measurements.isEmpty then
        if st.height = .none ∨ st.weight = .none then
          .error (.validationError
            "Measurements dict is required or height and weight must be set on the instance")
        else .ok [("Height", st.height), ("Weight", st.weight)]
      else .ok measurements
    match mres with
    | .error e => (.error e, st, [])
    | .ok _ =>
      let call := "POST avatars/create/from-measurements"
      match resp.dataId with
      | Option.some theId =>
          (.ok theId, { st with avatar_id := Option.some theId }, [call])
      | Option.none =>
          (.error (.apiError "Failed to create avatar from measurements: Invalid API response"),
           st, [call])
  else
    (.error (.validationError "Gender must be either 'male' or 'female'"), st, [])

/-! ## The polling/download state machine (`Avatar.download_avatar`) -/

/-- One entry of the `included` array of a poll response.  `type` models
`item.get("type")` (empty string for a missing key) and `urlPath` models
`item.get("attributes", {}).get("url", {}).get("path", "")`, with `""` for a
missing path — the code only tests this chain for truthiness, so the empty
string faithfully stands for an absent field. -/
structure IncItem where
  type : String
  urlPath : String
deriving DecidableEq, Repr

/-- One poll response: `state` models
`response.get("data", {}).get("attributes", {}).get("state", "")` and
`included` models `response.get("included", [])`. -/
structure PollResp where
  state : String
  included : List IncItem
deriving DecidableEq, Repr

/-- The `for item in included` scan: the first entry whose `type` is
`"asset"` and whose `attributes.url.path` is truthy (non-empty). -/
def findAsset : List IncItem → Option String
  | [] => Option.none
  | item :: rest =>
      if item.type = "asset" ∧ item.urlPath ≠ "" then Option.some item.urlPath
      else findAsset rest

/-- What `requests.get(download_url)` can produce: a response with a status
code and a body, or a raised `requests.exceptions.RequestException`. -/
inductive FetchResult where
  | response (status : Nat) (body : List Nat)
  | transportExc (msg : String)
deriving DecidableEq, Repr

/-- The environment `download_avatar` runs against: the response to the i-th
polling GET, the behaviour of the plain asset GET per URL, and the local
file system before the call. -/
structure DLEnv where
  poll : Nat → PollResp
  fetch : String → FetchResult
  fs : String → Option (List Nat)

/-- The one HTTP request `requests.get(download_url)` issues: the call
passes no `headers` argument, so the request carries no Authorization (or
any other caller-supplied) header. -/
structure AssetRequest where
  url : String
  headers : List (String × String)
deriving DecidableEq, Repr

/-- The observable outcome of one `download_avatar` call: the returned
filename or the raised exception, the number of polling GETs issued, the
file system afterwards, and the asset GET issued (if any). -/
structure DLOutcome where
  result : Except SDKErr String
  requests : Nat
  fs : String → Option (List Nat)
  assetReq : Option AssetRequest

/-- The `while retry_count < max_retries` loop of `download_avatar`, with
`fuel` the remaining iterations and `made` the polling GETs issued so far.
Matches the source order: on `READY`, scan `included`; on a hit, GET the
URL (`raise_for_status()` raises `requests.exceptions.HTTPError` exactly
for a status in 400..599 — not the SDK's `APIError`), write the body to
`filename` and return it for any other status; on `READY` without a usable asset just log and fall through
to the sleep.  On `FAILED`/`ERROR` raise `APIError` with the state.  When
the fuel runs out, raise `TimeoutError` with `timeoutMsg`. -/
def dlGo (env : DLEnv) (filename : String) (timeoutMsg : String) :
    Nat → Nat → DLOutcome
  | 0, made =>
      { result := .error (.timeoutError timeoutMsg), requests := made,
        fs := env.fs, assetReq := Option.none }
  | fuel + 1, made =>
      let r := env.poll made
      if r.state = "READY" then
        match findAsset r.included with
        | Option.some url =>
            match env.fetch url with
            | .response stc body =>
                if 400 ≤ stc ∧ stc < 600 then
                  { result := .error (.httpError stc), requests := made + 1,
                    fs := env.fs, assetReq := Option.some ⟨url, []⟩ }
                else
                  { result := .ok filename, requests := made + 1,
                    fs := fun p => if p = filename then Option.some body else env.fs p,
                    assetReq := Option.some ⟨url, []⟩ }
            | .transportExc m =>
                { result := .error (.transportError m), requests := made + 1,
                  fs := env.fs, assetReq := Option.some ⟨url, []⟩ }
        | Option.none => dlGo env filename timeoutMsg fuel (made + 1)
      else if r.state = "FAILED" ∨ r.state = "ERROR" then
        { result := .error (.apiError ("Avatar processing failed with state: " ++ r.state)),
          requests := made + 1, fs := env.fs, assetReq := Option.none }
      else dlGo env filename timeoutMsg fuel (made + 1)

/-- `Avatar.download_avatar(avatar_id, filename, polling_interval,
max_retries)`: resolve the id against the instance's `avatar_id` with
Python `or` (raising `ValidationError` when both are falsy, with no request
issued), then run the polling loop. -/
def download_avatar (avatar_id_arg self_avatar_id : Option String)
    (filename : String) (polling_interval max_retries : Nat) (env : DLEnv) :
    DLOutcome :=
  let avatar_id := pyOrStr avatar_id_arg self_avatar_id
  if optStrTruthy avatar_id then
    dlGo env filename
      ("Avatar processing timed out after "
        ++ toString (max_retries * polling_interval) ++ " seconds")
      max_retries 0
  else
    { result := .error (.validationError
        "No avatar ID provided. Create an avatar first or provide an ID."),
      requests := 0, fs := env.fs, assetReq := Option.none }

/-! ## Specification helpers for the polling loop -/

/-- A poll response on which the loop takes neither exit: not
`FAILED`/`ERROR`, and if `READY` then the `included` scan finds no usable
asset (the eventual-consistency tolerance). -/
def nonTerminal (r : PollResp) : Prop :=
  ¬(r.state = "FAILED" ∨ r.state = "ERROR") ∧
    (r.state = "READY" → findAsset r.included = Option.none)

/-- The outcome the loop body produces at polling index `j`, when it
produces one: `none` exactly when iteration `j` falls through to the sleep. -/
def terminalAt (env : DLEnv) (filename : String) (j : Nat) : Option DLOutcome :=
  let r := env.poll j
  if r.state = "READY" then
    match findAsset r.included with
    | Option.some url =>
        Option.some (match env.fetch url with
          | .response stc body =>
              if 400 ≤ stc ∧ stc < 600 then
                { result := .error (.httpError stc), requests := j + 1,
                  fs := env.fs, assetReq := Option.some ⟨url, []⟩ }
              else
                { result := .ok filename, requests := j + 1,
                  fs := fun p => if p = filename then Option.some body else env.fs p,
                  assetReq := Option.some ⟨url, []⟩ }
          | .transportExc m =>
              { result := .error (.transportError m), requests := j + 1,
                fs := env.fs, assetReq := Option.some ⟨url, []⟩ })
    | Option.none => Option.none
  else if r.state = "FAILED" ∨ r.state = "ERROR" then
    Option.some
      { result := .error (.apiError ("Avatar processing failed with state: " ++ r.state)),
        requests := j + 1, fs := env.fs, assetReq := Option.none }
  else Option.none

theorem terminalAt_eq_none_of_nonTerminal (env : DLEnv) (filename : String) (j : Nat)
    (h : nonTerminal (env.poll j)) : terminalAt env filename j = Option.none := by
  obtain ⟨h1, h2⟩ := h
  by_cases hR : (env.poll j).state = "READY"
  · simp [terminalAt, hR, h2 hR]
  · simp [terminalAt, hR, h1]

theorem dlGo_step_of_none (env : DLEnv) (filename m : String) (fuel made : Nat)
    (h : terminalAt env filename made = Option.none) :
    dlGo env filename m (fuel + 1) made = dlGo env filename m fuel (made + 1) := by
  by_cases hR : (env.poll made).state = "READY"
  · cases hFA : findAsset (env.poll made).included with
    | none => simp [dlGo, hR, hFA]
    | some url => simp [terminalAt, hR, hFA] at h
  · by_cases hFE : (env.poll made).state = "FAILED" ∨ (env.poll made).state = "ERROR"
    · simp [terminalAt, hR, hFE] at h
    · simp [dlGo, hR, hFE]

theorem dlGo_step_of_some (env : DLEnv) (filename m : String) (fuel made : Nat)
    (o : DLOutcome) (h : terminalAt env filename made = Option.some o) :
    dlGo env filename m (fuel + 1) made = o := by
  by_cases hR : (env.poll made).state = "READY"
  · cases hFA : findAsset (env.poll made).included with
    | none => simp [terminalAt, hR, hFA] at h
    | some url =>
        simp only [terminalAt, hR, hFA, if_true, Option.some.injEq] at h
        simp only [dlGo, hR, hFA, if_true]
        exact h
  · by_cases hFE : (env.poll made).state = "FAILED" ∨ (env.poll made).state = "ERROR"
    · simp only [terminalAt, hR, if_false, hFE, if_true, Option.some.injEq] at h
      simp only [dlGo, hR, if_false, hFE, if_true]
      exact h
    · simp [terminalAt, hR, hFE] at h

theorem dlGo_timeout (env : DLEnv) (filename m : String) : ∀ fuel made,
    (∀ i, made ≤ i → i < made + fuel → terminalAt env filename i = Option.none) →
    dlGo env filename m fuel made =
      { result := .error (.timeoutError m), requests := made + fuel,
        fs := env.fs, assetReq := Option.none } := by
  intro fuel
  induction fuel with
  | zero => intro made _; simp [dlGo]
  | succ n ih =>
      intro made h
      rw [dlGo_step_of_none env filename m n made (h made le_rfl (by omega))]
      rw [ih (made + 1) (fun i h1 h2 => h i (by omega) (by omega))]
      have e : made + 1 + n = made + (n + 1) := by omega
      rw [e]

theorem dlGo_reaches (env : DLEnv) (filename m : String) (o : DLOutcome) : ∀ fuel made j,
    made ≤ j → j < made + fuel →
    (∀ i, made ≤ i → i < j → terminalAt env filename i = Option.none) →
    terminalAt env filename j = Option.some o →
    dlGo env filename m fuel made = o := by
  intro fuel
  induction fuel with
  | zero => intro made j h1 h2 _ _; omega
  | succ n ih =>
      intro made j h1 h2 hpre hj
      rcases Nat.eq_or_lt_of_le h1 with he | hlt
      · subst he
        exact dlGo_step_of_some env filename m n made o hj
      · rw [dlGo_step_of_none env filename m n made (hpre made le_rfl hlt)]
        exact ih (made + 1) j hlt (by omega) (fun i hi1 hi2 => hpre i (by omega) hi2) hj

theorem download_avatar_eq_dlGo (id : String) (hid : id ≠ "") (selfId : Option String)
    (filename : String) (pi mr : Nat) (env : DLEnv) :
    download_avatar (Option.some id) selfId filename pi mr env =
      dlGo env filename
        ("Avatar processing timed out after " ++ toString (mr * pi) ++ " seconds") mr 0 := by
  have h1 : pyOrStr (Option.some id) selfId = Option.some id := by simp [pyOrStr, hid]
  unfold download_avatar
  rw [h1]
  simp [optStrTruthy, hid]

theorem create_empty_avatar_eq_ok (st : AvatarState) (resp : CreateResp) (theId : String)
    (h : resp.dataId = Option.some theId) :
    create_empty_avatar st resp =
      (Except.ok ⟨Option.some theId⟩, { st with avatar_id := Option.some theId }) := by
  cases hd : resp.data with
  | none => simp [CreateResp.dataId, hd] at h
  | some d =>
      obtain ⟨did⟩ := d
      cases hi : did with
      | none => simp [CreateResp.dataId, hd, hi] at h
      | some x =>
          simp only [CreateResp.dataId, hd, hi, Option.bind_eq_bind, Option.some_bind,
            Option.some.injEq] at h
          subst hi
          cases h
          simp [create_empty_avatar, hd]

/-- The collected per-file result list inside the returned dict
(empty for the other shapes; used only to state properties). -/
def uploadEntries : Except SDKErr UploadReturn → List UploadEntry
  | Except.ok (UploadReturn.batch es) => es
  | _ => []

theorem upload_go_props (env : CreateEnv) (avatar_id : String)
    (hwf : ∀ i, (env.presignResps i).uploadLink ≠ Option.none →
      (env.presignResps i).dataId ≠ Option.none) :
    ∀ paths i, ∃ es, (upload_go env avatar_id paths i).1 = Except.ok es ∧
      es.map (fun e => e.file) = (paths.filter (fun p => env.fileExists p)).map basename ∧
      (∀ e ∈ es, e.status = "success" ∨ e.status = "failed") := by
  intro paths
  induction paths with
  | nil => intro i; exact ⟨[], rfl, rfl, by simp⟩
  | cons p rest ih =>
      intro i
      cases hex : env.fileExists p with
      | false =>
          obtain ⟨es, h1, h2, h3⟩ := ih i
          refine ⟨es, ?_, ?_, h3⟩
          · simpa [upload_go, hex] using h1
          · simpa [hex] using h2
      | true =>
          cases hUL : (env.presignResps i).uploadLink with
          | none =>
              obtain ⟨es, h1, h2, h3⟩ := ih (i + 1)
              refine ⟨failedEntry "Failed to get upload URL" (basename p) :: es, ?_, ?_, ?_⟩
              · simp [upload_go, hex, hUL, h1, Except.map]
              · simp [failedEntry, hex, h2]
              · intro e he
                rcases List.mem_cons.mp he with rfl | he
                · exact Or.inr rfl
                · exact h3 e he
          | some url =>
              have hID := hwf i (by rw [hUL]; exact fun hc => Option.noConfusion hc)
              cases hid : (env.presignResps i).dataId with
              | none => exact absurd hid hID
              | some image_id =>
                  obtain ⟨es, h1, h2, h3⟩ := ih (i + 1)
                  refine ⟨(if env.s3Put url = 200 then
                            successEntry image_id avatar_id (basename p)
                          else
                            failedEntry
                              ("S3 upload failed with status code: " ++ toString (env.s3Put url))
                              (basename p)) :: es, ?_, ?_, ?_⟩
                  · simp [upload_go, hex, hUL, hid, h1, Except.map]
                  · by_cases h200 : env.s3Put url = 200 <;>
                      simp [h200, successEntry, failedEntry, hex, h2]
                  · intro e he
                    rcases List.mem_cons.mp he with rfl | he
                    · by_cases h200 : env.s3Put url = 200
                      · exact Or.inl (by simp [h200, successEntry])
                      · exact Or.inr (by simp [h200, failedEntry])
                    · exact h3 e he

/-! ## Concrete environments used by counterexamples and witnesses -/

/-- A well-formed pre-signed-URL response. -/
def demoPresign : PresignResp :=
  ⟨Option.some ⟨Option.some "img-1", Option.some ⟨Option.some "https://s3.example/upload-1"⟩⟩⟩

/-- A creation environment in which no local file exists. -/
def demoCreateEnv : CreateEnv :=
  { createResp := ⟨Option.some ⟨Option.some "avatar-1"⟩⟩,
    presignResps := fun _ => demoPresign,
    s3Put := fun _ => 200,
    fileExists := fun _ => false,
    fileBytes := fun _ => [] }

/-- A creation environment in which every local file exists and S3 accepts. -/
def demoCreateEnvOk : CreateEnv :=
  { createResp := ⟨Option.some ⟨Option.some "avatar-1"⟩⟩,
    presignResps := fun _ => demoPresign,
    s3Put := fun _ => 200,
    fileExists := fun _ => true,
    fileBytes := fun _ => [1, 2, 3] }

/-- An avatar whose id has been bound by an earlier creation call. -/
def stBound : AvatarState :=
  { name := .str "Alice", height := .int 170, weight := .int 60,
    gender := .str "female", avatar_id := Option.some "first-id" }

/-- A download environment that reports `PROCESSING` forever. -/
def demoDLEnvPending : DLEnv :=
  { poll := fun i => if i = 1 then ⟨"READY", [⟨"asset", ""⟩, ⟨"other", "x"⟩]⟩
      else ⟨"PROCESSING", []⟩,
    fetch := fun _ => .response 200 [],
    fs := fun _ => Option.none }

/-- A download environment whose second poll reports `FAILED`. -/
def demoDLEnvFailed : DLEnv :=
  { poll := fun i => if i = 0 then ⟨"PROCESSING", []⟩ else ⟨"FAILED", []⟩,
    fetch := fun _ => .response 200 [],
    fs := fun _ => Option.none }

/-- A download environment that is `READY` at once and serves the asset. -/
def demoDLEnvReady : DLEnv :=
  { poll := fun _ => ⟨"READY", [⟨"asset", "https://cdn.example/a.obj"⟩]⟩,
    fetch := fun _ => .response 200 [7, 8, 9],
    fs := fun _ => Option.none }

/-- A download environment whose asset GET answers 404. -/
def demoDLEnv404 : DLEnv :=
  { poll := fun _ => ⟨"READY", [⟨"asset", "https://cdn.example/a.obj"⟩]⟩,
    fetch := fun _ => .response 404 [],
    fs := fun _ => Option.none }

/-- A download environment whose asset GET raises a transport exception. -/
def demoDLEnvConn : DLEnv :=
  { poll := fun _ => ⟨"READY", [⟨"asset", "https://cdn.example/a.obj"⟩]⟩,
    fetch := fun _ => .transportExc "connection refused",
    fs := fun _ => Option.none }

/-- A download environment whose asset GET answers 304 (non-2xx but outside
the 400..599 range `raise_for_status()` raises on) with an empty body. -/
def demoDLEnv304 : DLEnv :=
  { poll := fun _ => ⟨"READY", [⟨"asset", "https://cdn.example/a.obj"⟩]⟩,
    fetch := fun _ => .response 304 [],
    fs := fun _ => Option.none }

/-! ## Claims -/

/-- Claim C2 (corrected, amended part): the `height`/`weight` setters raise
`ValidationError` on any non-positive integer and on any non-`int` value,
and accept every positive integer; the `gender` setter raises on anything
but the strings `"male"`/`"female"` and accepts those; a successful
assignment changes only the targeted attribute (the `with`-update exhibits
every other field unchanged), and a failed one returns no new state — the
raise precedes the mutation.  The `name` setter validates nothing: every
value, `None` included, is accepted. -/
theorem avatar_setters_spec :
    (∀ st v, set_name st v = Except.ok { st with name := v }) ∧
    (∀ st (n : Int), n ≤ 0 → set_height st (.int n) =
      Except.error (SDKErr.validationError "Height must be a positive integer")) ∧
    (∀ st v, (∀ n : Int, v ≠ .int n) → set_height st v =
      Except.error (SDKErr.validationError "Height must be a positive integer")) ∧
    (∀ st (n : Int), 0 < n → set_height st (.int n) =
      Except.ok { st with height := .int n }) ∧
    (∀ st (n : Int), n ≤ 0 → set_weight st (.int n) =
      Except.error (SDKErr.validationError "Weight must be a positive integer")) ∧
    (∀ st v, (∀ n : Int, v ≠ .int n) → set_weight st v =
      Except.error (SDKErr.validationError "Weight must be a positive integer")) ∧
    (∀ st (n : Int), 0 < n → set_weight st (.int n) =
      Except.ok { st with weight := .int n }) ∧
    (∀ st v, v ≠ .str "male" → v ≠ .str "female" → set_gender st v =
      Except.error (SDKErr.validationError "Gender must be either 'male' or 'female'")) ∧
    (∀ st, set_gender st (.str "male") = Except.ok { st with gender := .str "male" }) ∧
    (∀ st, set_gender st (.str "female") = Except.ok { st with gender := .str "female" }) := by
  refine ⟨fun st v => rfl, ?_, ?_, ?_, ?_, ?_, ?_, ?_, ?_, ?_⟩
  · intro st n hn; simp [set_height, hn]
  · intro st v hv
    cases v with
    | int n => exact absurd rfl (hv n)
    | str s => rfl
    | none => rfl
  · intro st n hn; simp [set_height, show ¬ n ≤ 0 from by omega]
  · intro st n hn; simp [set_weight, hn]
  · intro st v hv
    cases v with
    | int n => exact absurd rfl (hv n)
    | str s => rfl
    | none => rfl
  · intro st n hn; simp [set_weight, show ¬ n ≤ 0 from by omega]
  · intro st v h1 h2; simp [set_gender, h1, h2]
  · intro st; simp [set_gender]
  · intro st; simp [set_gender]

/-- Witness for C2's theorem at concrete inputs. -/
theorem avatar_setters_spec_witness :
    set_height initAvatarState (.int 0) =
      Except.error (SDKErr.validationError "Height must be a positive integer") ∧
    set_height initAvatarState (.str "tall") =
      Except.error (SDKErr.validationError "Height must be a positive integer") ∧
    set_height initAvatarState (.int 180) =
      Except.ok { initAvatarState with height := .int 180 } ∧
    set_weight initAvatarState (.int (-5)) =
      Except.error (SDKErr.validationError "Weight must be a positive integer") ∧
    set_weight initAvatarState (.int 70) =
      Except.ok { initAvatarState with weight := .int 70 } ∧
    set_gender initAvatarState (.str "other") =
      Except.error (SDKErr.validationError "Gender must be either 'male' or 'female'") ∧
    set_gender initAvatarState (.str "male") =
      Except.ok { initAvatarState with gender := .str "male" } ∧
    set_name initAvatarState (.str "Ada") =
      Except.ok { initAvatarState with name := .str "Ada" } :=
  ⟨avatar_setters_spec.2.1 initAvatarState 0 (by omega),
   avatar_setters_spec.2.2.1 initAvatarState (.str "tall")
     (fun n h => PyValue.noConfusion h),
   avatar_setters_spec.2.2.2.1 initAvatarState 180 (by omega),
   avatar_setters_spec.2.2.2.2.1 initAvatarState (-5) (by omega),
   avatar_setters_spec.2.2.2.2.2.2.1 initAvatarState 70 (by omega),
   avatar_setters_spec.2.2.2.2.2.2.2.1 initAvatarState (.str "other")
     (by decide) (by decide),
   avatar_setters_spec.2.2.2.2.2.2.2.2.1 initAvatarState,
   avatar_setters_spec.1 initAvatarState (.str "Ada")⟩

/-- Counterexample to claim C2 as stated: assigning a missing (`None`) name
does not raise `ValidationError` — the `name` setter stores the value and
returns normally. -/
theorem set_name_accepts_missing_value :
    set_name initAvatarState PyValue.none = Except.ok initAvatarState := rfl

/-- Claim C7 (confirmed): invoking the image-based creation workflow with
any of the four required attributes unset raises `ValidationError` with the
source's message, leaves the state untouched, and issues zero HTTP
requests (the request list is empty). -/
theorem create_from_image_requires_attributes (st : AvatarState) (env : CreateEnv)
    (paths : List String)
    (h : st.name = .none ∨ st.height = .none ∨ st.weight = .none ∨ st.gender = .none) :
    create_avatar_from_image st env paths =
      (Except.error (SDKErr.validationError
        ("Required properties (name, height, weight, gender) must be set before creating an avatar. "
          ++ "Use set_name(), set_height(), set_weight(), and set_gender() methods.")),
       st, []) := by
  unfold create_avatar_from_image
  rw [if_pos h]

/-- Witness for C7's theorem: a freshly initialized avatar. -/
theorem create_from_image_requires_attributes_witness :
    create_avatar_from_image initAvatarState demoCreateEnv ["x.jpg"] =
      (Except.error (SDKErr.validationError
        ("Required properties (name, height, weight, gender) must be set before creating an avatar. "
          ++ "Use set_name(), set_height(), set_weight(), and set_gender() methods.")),
       initAvatarState, []) :=
  create_from_image_requires_attributes initAvatarState demoCreateEnv ["x.jpg"]
    (Or.inl rfl)

/-- Claim C8 (confirmed): a create-empty-avatar response without `data.id`
makes `_create_empty_avatar` raise `APIError` with the source's message,
and the avatar identifier field is returned unchanged. -/
theorem create_empty_invalid_response (st : AvatarState) (resp : CreateResp)
    (h : resp.dataId = Option.none) :
    create_empty_avatar st resp =
      (Except.error (SDKErr.apiError "Failed to create avatar: Invalid API response"), st) := by
  cases hd : resp.data with
  | none => simp [create_empty_avatar, hd]
  | some d =>
      cases hi : d.id with
      | none => simp [create_empty_avatar, hd, hi]
      | some x => simp [CreateResp.dataId, hd, hi] at h

/-- Witness for C8's theorem: a response with no `data` at all, against a
state with a previously bound id, which stays bound to the old value. -/
theorem create_empty_invalid_response_witness :
    create_empty_avatar stBound ⟨Option.none⟩ =
      (Except.error (SDKErr.apiError "Failed to create avatar: Invalid API response"),
       stBound) :=
  create_empty_invalid_response stBound ⟨Option.none⟩ rfl

/-- Claim C10 (confirmed): constructing a `BaseClient` — or an `Avatar`,
which runs the same initializer — with no `api_key` argument while the
process-wide `API_KEY` global is still `None` raises `AuthenticationError`
at construction time; the initializer inspects only local configuration, so
no request is ever issued. -/
theorem client_construction_requires_api_key :
    ∀ api_url globalUrl : Option String,
      BaseClient_init Option.none api_url Option.none globalUrl =
        Except.error (SDKErr.authenticationError
          "API key is not set. Please use meshcapade.set_api_key() to set your API key.") ∧
      Avatar_init Option.none api_url Option.none globalUrl =
        Except.error (SDKErr.authenticationError
          "API key is not set. Please use meshcapade.set_api_key() to set your API key.") := by
  intro u g
  constructor
  · simp [BaseClient_init, pyOrStr, optStrTruthy]
  · simp [BaseClient_init, Avatar_init, pyOrStr, optStrTruthy, Except.map]

/-- Claim C5 (confirmed): with a truthy avatar id, when no polled response
is `FAILED`/`ERROR` and none is `READY` with a usable asset entry (a `READY`
response whose `included` scan finds no non-empty `attributes.url.path` only
continues polling), the loop issues exactly `max_retries` polling GETs and
then raises `TimeoutError` reporting `max_retries * polling_interval`
seconds. -/
theorem download_polls_then_timeout (id : String) (hid : id ≠ "")
    (selfId : Option String) (filename : String) (pi mr : Nat) (env : DLEnv)
    (hnt : ∀ i, i < mr → nonTerminal (env.poll i)) :
    (download_avatar (Option.some id) selfId filename pi mr env).result =
      Except.error (SDKErr.timeoutError
        ("Avatar processing timed out after " ++ toString (mr * pi) ++ " seconds")) ∧
    (download_avatar (Option.some id) selfId filename pi mr env).requests = mr := by
  rw [download_avatar_eq_dlGo id hid selfId filename pi mr env]
  rw [dlGo_timeout env filename _ mr 0
    (fun i h1 h2 => terminalAt_eq_none_of_nonTerminal env filename i (hnt i (by omega)))]
  exact ⟨rfl, by simp⟩

/-- Witness for C5's theorem: three polls, the second of which is `READY`
with an asset entry whose url path is empty (so it is skipped), ending in
`TimeoutError` after 3 polls of 5 seconds. -/
theorem download_polls_then_timeout_witness :
    (download_avatar (Option.some "av1") Option.none "out.obj" 5 3 demoDLEnvPending).result =
      Except.error (SDKErr.timeoutError
        ("Avatar processing timed out after " ++ toString (3 * 5) ++ " seconds")) ∧
    (download_avatar (Option.some "av1") Option.none "out.obj" 5 3 demoDLEnvPending).requests = 3 :=
  download_polls_then_timeout "av1" (by decide) Option.none "out.obj" 5 3 demoDLEnvPending
    (fun i hi => by
      interval_cases i <;> exact ⟨by decide, fun h => by decide⟩)

/-- Claim C6 (confirmed): if the `j`-th polled response is the first
terminal observation and its state is `FAILED` or `ERROR`, the loop raises
`APIError` carrying that state and has issued exactly `j + 1` polling GETs —
no further request follows the observation. -/
theorem download_fails_fast_on_failed_state (id : String) (hid : id ≠ "")
    (selfId : Option String) (filename : String) (pi mr j : Nat) (env : DLEnv)
    (hj : j < mr)
    (hpre : ∀ i, i < j → nonTerminal (env.poll i))
    (hFE : (env.poll j).state = "FAILED" ∨ (env.poll j).state = "ERROR") :
    (download_avatar (Option.some id) selfId filename pi mr env).result =
      Except.error (SDKErr.apiError
        ("Avatar processing failed with state: " ++ (env.poll j).state)) ∧
    (download_avatar (Option.some id) selfId filename pi mr env).requests = j + 1 := by
  have hR : ¬ (env.poll j).state = "READY" := by
    rcases hFE with h | h <;> rw [h] <;> decide
  have hterm : terminalAt env filename j = Option.some
      { result := .error (.apiError ("Avatar processing failed with state: " ++ (env.poll j).state)),
        requests := j + 1, fs := env.fs, assetReq := Option.none } := by
    simp [terminalAt, hR, hFE]
  rw [download_avatar_eq_dlGo id hid selfId filename pi mr env]
  rw [dlGo_reaches env filename _ _ mr 0 j (Nat.zero_le j) (by omega)
    (fun i _ h2 => terminalAt_eq_none_of_nonTerminal env filename i (hpre i h2)) hterm]
  exact ⟨rfl, rfl⟩

/-- Witness for C6's theorem: `PROCESSING` then `FAILED`, observed on the
second poll out of a budget of 60: `APIError` after exactly 2 GETs. -/
theorem download_fails_fast_on_failed_state_witness :
    (download_avatar (Option.some "av1") Option.none "out.obj" 5 60 demoDLEnvFailed).result =
      Except.error (SDKErr.apiError
        ("Avatar processing failed with state: " ++ (demoDLEnvFailed.poll 1).state)) ∧
    (download_avatar (Option.some "av1") Option.none "out.obj" 5 60 demoDLEnvFailed).requests = 1 + 1 :=
  download_fails_fast_on_failed_state "av1" (by decide) Option.none "out.obj" 5 60 1
    demoDLEnvFailed (by omega)
    (fun i hi => by
      have h0 : i = 0 := by omega
      subst h0
      exact ⟨by decide, fun h => by decide⟩)
    (Or.inl (by decide))

/-- Claim C9 (confirmed): when the first terminal observation is `READY`
with a usable asset url and the plain GET on it succeeds (2xx), the call
writes exactly the response body to the target path `P`, leaves every other
path of the file system unchanged, and returns `P`. -/
theorem download_writes_asset_body (id : String) (hid : id ≠ "")
    (selfId : Option String) (P : String) (pi mr j : Nat) (env : DLEnv)
    (url : String) (stc : Nat) (body : List Nat)
    (hj : j < mr)
    (hpre : ∀ i, i < j → nonTerminal (env.poll i))
    (hR : (env.poll j).state = "READY")
    (hFA : findAsset (env.poll j).included = Option.some url)
    (hf : env.fetch url = .response stc body)
    (h2xx : 200 ≤ stc ∧ stc < 300) :
    (download_avatar (Option.some id) selfId P pi mr env).result = Except.ok P ∧
    (download_avatar (Option.some id) selfId P pi mr env).fs P = Option.some body ∧
    (∀ q, q ≠ P → (download_avatar (Option.some id) selfId P pi mr env).fs q = env.fs q) ∧
    (download_avatar (Option.some id) selfId P pi mr env).requests = j + 1 := by
  have hlt : ¬ (400 ≤ stc ∧ stc < 600) := by omega
  have hterm : terminalAt env P j = Option.some
      { result := .ok P, requests := j + 1,
        fs := fun p => if p = P then Option.some body else env.fs p,
        assetReq := Option.some ⟨url, []⟩ } := by
    simp [terminalAt, hR, hFA, hf, hlt]
  rw [download_avatar_eq_dlGo id hid selfId P pi mr env]
  rw [dlGo_reaches env P _ _ mr 0 j (Nat.zero_le j) (by omega)
    (fun i _ h2 => terminalAt_eq_none_of_nonTerminal env P i (hpre i h2)) hterm]
  refine ⟨rfl, by simp, fun q hq => by simp [hq], rfl⟩

/-- Witness for C9's theorem: an immediately-`READY` environment; the body
`[7, 8, 9]` lands at `model.obj`, other paths stay empty, one GET. -/
theorem download_writes_asset_body_witness :
    (download_avatar (Option.some "av1") Option.none "model.obj" 5 60 demoDLEnvReady).result =
      Except.ok "model.obj" ∧
    (download_avatar (Option.some "av1") Option.none "model.obj" 5 60 demoDLEnvReady).fs "model.obj" =
      Option.some [7, 8, 9] ∧
    (download_avatar (Option.some "av1") Option.none "model.obj" 5 60 demoDLEnvReady).fs "other.obj" =
      demoDLEnvReady.fs "other.obj" :=
  have h := download_writes_asset_body "av1" (by decide) Option.none "model.obj" 5 60 0
    demoDLEnvReady "https://cdn.example/a.obj" 200 [7, 8, 9] (by omega)
    (fun i hi => absurd hi (by omega)) (by decide) (by decide) (by decide) (by omega)
  ⟨h.1, h.2.1, h.2.2.1 "other.obj" (by decide)⟩

/-- Counterexample to claim C3 as stated: with the asset GET answering 404,
the call raises `requests.exceptions.HTTPError` (the `httpError`
constructor, produced by `raise_for_status()`), not the SDK's `APIError`;
with the GET raising a transport exception, that exception propagates raw
(the `transportError` constructor) instead of being wrapped into
`APIError`. -/
theorem download_get_non2xx_not_apierror :
    (download_avatar (Option.some "av1") Option.none "a.obj" 5 60 demoDLEnv404).result =
      Except.error (SDKErr.httpError 404) ∧
    (download_avatar (Option.some "av1") Option.none "a.obj" 5 60 demoDLEnvConn).result =
      Except.error (SDKErr.transportError "connection refused") :=
  ⟨rfl, rfl⟩

/-- Claim C3 (corrected): once a download url is found the asset is fetched
by a plain GET that carries no caller-supplied headers (in particular no
Authorization header) — but a response in the 400..599 range (exactly the
statuses `raise_for_status()` raises on) makes the call raise the HTTP
library's `HTTPError`, propagated raw rather than wrapped into `APIError`;
a transport-level exception from the GET likewise propagates raw; and any
status outside that range — 2xx, but also a non-2xx such as 304 — raises
nothing: the body is written and the filename returned. -/
theorem download_get_error_paths (id : String) (hid : id ≠ "")
    (selfId : Option String) (filename : String) (pi mr j : Nat) (env : DLEnv)
    (url : String)
    (hj : j < mr)
    (hpre : ∀ i, i < j → nonTerminal (env.poll i))
    (hR : (env.poll j).state = "READY")
    (hFA : findAsset (env.poll j).included = Option.some url) :
    (∀ stc body, env.fetch url = .response stc body → 400 ≤ stc → stc < 600 →
      (download_avatar (Option.some id) selfId filename pi mr env).result =
        Except.error (SDKErr.httpError stc) ∧
      (download_avatar (Option.some id) selfId filename pi mr env).assetReq =
        Option.some ⟨url, []⟩) ∧
    (∀ m, env.fetch url = .transportExc m →
      (download_avatar (Option.some id) selfId filename pi mr env).result =
        Except.error (SDKErr.transportError m) ∧
      (download_avatar (Option.some id) selfId filename pi mr env).assetReq =
        Option.some ⟨url, []⟩) ∧
    (∀ stc body, env.fetch url = .response stc body → ¬(400 ≤ stc ∧ stc < 600) →
      (download_avatar (Option.some id) selfId filename pi mr env).result =
        Except.ok filename ∧
      (download_avatar (Option.some id) selfId filename pi mr env).assetReq =
        Option.some ⟨url, []⟩) := by
  refine ⟨?_, ?_, ?_⟩
  · intro stc body hf hge hlt
    have hterm : terminalAt env filename j = Option.some
        { result := .error (.httpError stc), requests := j + 1,
          fs := env.fs, assetReq := Option.some ⟨url, []⟩ } := by
      simp [terminalAt, hR, hFA, hf, hge, hlt]
    rw [download_avatar_eq_dlGo id hid selfId filename pi mr env]
    rw [dlGo_reaches env filename _ _ mr 0 j (Nat.zero_le j) (by omega)
      (fun i _ h2 => terminalAt_eq_none_of_nonTerminal env filename i (hpre i h2)) hterm]
    exact ⟨rfl, rfl⟩
  · intro m hf
    have hterm : terminalAt env filename j = Option.some
        { result := .error (.transportError m), requests := j + 1,
          fs := env.fs, assetReq := Option.some ⟨url, []⟩ } := by
      simp [terminalAt, hR, hFA, hf]
    rw [download_avatar_eq_dlGo id hid selfId filename pi mr env]
    rw [dlGo_reaches env filename _ _ mr 0 j (Nat.zero_le j) (by omega)
      (fun i _ h2 => terminalAt_eq_none_of_nonTerminal env filename i (hpre i h2)) hterm]
    exact ⟨rfl, rfl⟩
  · intro stc body hf hout
    have hterm : terminalAt env filename j = Option.some
        { result := .ok filename, requests := j + 1,
          fs := fun p => if p = filename then Option.some body else env.fs p,
          assetReq := Option.some ⟨url, []⟩ } := by
      simp [terminalAt, hR, hFA, hf, hout]
    rw [download_avatar_eq_dlGo id hid selfId filename pi mr env]
    rw [dlGo_reaches env filename _ _ mr 0 j (Nat.zero_le j) (by omega)
      (fun i _ h2 => terminalAt_eq_none_of_nonTerminal env filename i (hpre i h2)) hterm]
    exact ⟨rfl, rfl⟩

/-- Witness for C3's theorem: the 404 environment (in `raise_for_status()`'s
range), the connection-refused environment, and the 304 environment (non-2xx
but outside the range, so the call returns normally), all on the first poll;
every issued asset request carries the empty header list. -/
theorem download_get_error_paths_witness :
    ((download_avatar (Option.some "av1") Option.none "a.obj" 5 60 demoDLEnv404).result =
        Except.error (SDKErr.httpError 404) ∧
      (download_avatar (Option.some "av1") Option.none "a.obj" 5 60 demoDLEnv404).assetReq =
        Option.some ⟨"https://cdn.example/a.obj", []⟩) ∧
    ((download_avatar (Option.some "av1") Option.none "a.obj" 5 60 demoDLEnvConn).result =
        Except.error (SDKErr.transportError "connection refused") ∧
      (download_avatar (Option.some "av1") Option.none "a.obj" 5 60 demoDLEnvConn).assetReq =
        Option.some ⟨"https://cdn.example/a.obj", []⟩) ∧
    ((download_avatar (Option.some "av1") Option.none "a.obj" 5 60 demoDLEnv304).result =
        Except.ok "a.obj" ∧
      (download_avatar (Option.some "av1") Option.none "a.obj" 5 60 demoDLEnv304).assetReq =
        Option.some ⟨"https://cdn.example/a.obj", []⟩) :=
  ⟨(download_get_error_paths "av1" (by decide) Option.none "a.obj" 5 60 0 demoDLEnv404
      "https://cdn.example/a.obj" (by omega) (fun i hi => absurd hi (by omega))
      (by decide) (by decide)).1 404 [] (by decide) (by omega) (by omega),
   (download_get_error_paths "av1" (by decide) Option.none "a.obj" 5 60 0 demoDLEnvConn
      "https://cdn.example/a.obj" (by omega) (fun i hi => absurd hi (by omega))
      (by decide) (by decide)).2.1 "connection refused" (by decide),
   (download_get_error_paths "av1" (by decide) Option.none "a.obj" 5 60 0 demoDLEnv304
      "https://cdn.example/a.obj" (by omega) (fun i hi => absurd hi (by omega))
      (by decide) (by decide)).2.2 304 [] (by decide) (by omega)⟩

/-- Counterexample to claim C1 as stated: one input path whose local file
does not exist produces an upload-step result with zero entries — not one
entry per input path, and no `failed` entry for the missing file (the loop
`continue`s without recording anything). -/
theorem upload_missing_file_yields_no_entry :
    (upload_images demoCreateEnv "avatar-1" ["missing.jpg"]).1 =
      Except.ok (UploadReturn.batch []) ∧
    List.length ([] : List UploadEntry) ≠ List.length ["missing.jpg"] :=
  ⟨rfl, by decide⟩

/-- Claim C1 (corrected): provided every pre-signed response that carries an
upload link also carries its `data` `id` (otherwise the bare subscript
`presigned_data["data"]["id]"` raises `KeyError`), the upload step never
raises for per-item failures and returns one result entry per input path
whose local file exists, in input order, each tagged `success` or `failed`;
a path whose file does not exist is silently skipped with no result entry
(per-entry tags are never `skipped` — that tag only labels the whole-step
dict when no paths are supplied).  The workflow then proceeds to the
fit-to-images trigger regardless of per-item failures: with the four
attributes set, a well-formed create response and a non-empty path list,
the workflow returns the id and its last issued request is the fit POST. -/
theorem upload_results_per_existing_path (env : CreateEnv) (avatar_id : String)
    (hwf : ∀ i, (env.presignResps i).uploadLink ≠ Option.none →
      (env.presignResps i).dataId ≠ Option.none) :
    (∀ paths, paths ≠ [] →
      (upload_images env avatar_id paths).1 =
        Except.ok (UploadReturn.batch (uploadEntries (upload_images env avatar_id paths).1)) ∧
      (uploadEntries (upload_images env avatar_id paths).1).map (fun e => e.file) =
        (paths.filter (fun p => env.fileExists p)).map basename ∧
      (∀ e ∈ uploadEntries (upload_images env avatar_id paths).1,
        e.status = "success" ∨ e.status = "failed")) ∧
    (∀ st paths theId,
      ¬(st.name = .none ∨ st.height = .none ∨ st.weight = .none ∨ st.gender = .none) →
      env.createResp.dataId = Option.some theId → paths ≠ [] →
      (create_avatar_from_image st env paths).1 = Except.ok theId ∧
      (create_avatar_from_image st env paths).2.2.getLast? =
        Option.some ("POST avatars/" ++ theId ++ "/fit-to-images")) := by
  have core : ∀ (aid : String) (paths : List String), paths ≠ [] →
      ∃ es, (upload_images env aid paths).1 = Except.ok (UploadReturn.batch es) ∧
        es.map (fun e => e.file) = (paths.filter (fun p => env.fileExists p)).map basename ∧
        (∀ e ∈ es, e.status = "success" ∨ e.status = "failed") := by
    intro aid paths hne
    obtain ⟨es, h1, h2, h3⟩ := upload_go_props env aid hwf paths 0
    have hemp : paths.isEmpty = false := by
      cases paths with
      | nil => exact absurd rfl hne
      | cons a l => rfl
    exact ⟨es, by simp [upload_images, hemp, h1, Except.map], h2, h3⟩
  constructor
  · intro paths hne
    obtain ⟨es, h1, h2, h3⟩ := core avatar_id paths hne
    have he : uploadEntries (upload_images env avatar_id paths).1 = es := by
      rw [h1]; rfl
    rw [he]
    exact ⟨h1, h2, h3⟩
  · intro st paths theId hattrs hcreate hne
    have hemp : paths.isEmpty = false := by
      cases paths with
      | nil => exact absurd rfl hne
      | cons a l => rfl
    obtain ⟨es, h1, _, _⟩ := core theId paths hne
    have heq : create_avatar_from_image st env paths =
        (Except.ok theId, { st with avatar_id := Option.some theId },
         "POST avatars/create/from-images" ::
           ((upload_images env theId paths).2 ++
             ["POST avatars/" ++ theId ++ "/fit-to-images"])) := by
      unfold create_avatar_from_image
      rw [if_neg hattrs, create_empty_avatar_eq_ok st env.createResp theId hcreate]
      simp [hemp, h1]
    refine ⟨by rw [heq], ?_⟩
    rw [heq]
    exact List.getLast?_concat ("POST avatars/create/from-images" ::
      (upload_images env theId paths).2)

/-- Witness for C1's theorem: two paths, one nested, both existing; the two
entries are tagged and ordered, and the fit POST closes the request list. -/
theorem upload_results_per_existing_path_witness :
    ((upload_images demoCreateEnvOk "avatar-1" ["a/b.jpg", "c.jpg"]).1 =
        Except.ok (UploadReturn.batch
          (uploadEntries (upload_images demoCreateEnvOk "avatar-1" ["a/b.jpg", "c.jpg"]).1)) ∧
      (uploadEntries (upload_images demoCreateEnvOk "avatar-1" ["a/b.jpg", "c.jpg"]).1).map
          (fun e => e.file) =
        ((["a/b.jpg", "c.jpg"].filter (fun p => demoCreateEnvOk.fileExists p)).map basename) ∧
      (∀ e ∈ uploadEntries (upload_images demoCreateEnvOk "avatar-1" ["a/b.jpg", "c.jpg"]).1,
        e.status = "success" ∨ e.status = "failed")) ∧
    ((create_avatar_from_image stBound demoCreateEnvOk ["a/b.jpg", "c.jpg"]).1 =
        Except.ok "avatar-1" ∧
      (create_avatar_from_image stBound demoCreateEnvOk ["a/b.jpg", "c.jpg"]).2.2.getLast? =
        Option.some ("POST avatars/" ++ "avatar-1" ++ "/fit-to-images")) :=
  have h := upload_results_per_existing_path demoCreateEnvOk "avatar-1"
    (fun i _ => by simp [demoCreateEnvOk, demoPresign, PresignResp.dataId])
  ⟨h.1 ["a/b.jpg", "c.jpg"] (by decide),
   h.2 stBound ["a/b.jpg", "c.jpg"] "avatar-1" (by decide) (by decide) (by decide)⟩

/-- Counterexample to claim C4 as stated: an avatar whose id is already
bound to `"first-id"` gets it silently rebound to `"second-id"` by a later
successful measurement-based creation call — the identifier is not
immutable once assigned. -/
theorem avatar_id_overwritten_by_second_create :
    stBound.avatar_id = Option.some "first-id" ∧
    ((create_avatar_from_measurements stBound ⟨Option.some ⟨Option.some "second-id"⟩⟩
        PyValue.none PyValue.none []).2.1).avatar_id = Option.some "second-id" ∧
    (Option.some "second-id" : Option String) ≠ Option.some "first-id" :=
  ⟨rfl, rfl, by decide⟩

/-- Claim C4 (corrected): the avatar identifier is an ordinary mutable
attribute with no read-only enforcement: every successful creation call —
measurement-based or the create-empty step — rebinds `avatar_id` to the id
of its response, overwriting whatever was bound before; only the
non-creating operations leave it alone. -/
theorem avatar_id_rebinds_on_create (st : AvatarState) (resp : CreateResp)
    (n g : PyValue) (ms : List (String × PyValue)) (theId : String)
    (hname : (pyOrV n st.name).truthy = true)
    (hg : pyOrV g st.gender = .str "male" ∨ pyOrV g st.gender = .str "female")
    (hms : ms ≠ [])
    (hid : resp.dataId = Option.some theId) :
    create_avatar_from_measurements st resp n g ms =
      (Except.ok theId, { st with avatar_id := Option.some theId },
       ["POST avatars/create/from-measurements"]) ∧
    create_empty_avatar st resp =
      (Except.ok ⟨Option.some theId⟩, { st with avatar_id := Option.some theId }) := by
  refine ⟨?_, create_empty_avatar_eq_ok st resp theId hid⟩
  have hemp : ms.isEmpty = false := by
    cases ms with
    | nil => exact absurd rfl hms
    | cons a l => rfl
  rcases hg with h | h
  · simp [create_avatar_from_measurements, hname, h, hemp, hid,
      show PyValue.truthy (.str "male") = true from rfl]
  · simp [create_avatar_from_measurements, hname, h, hemp, hid,
      show PyValue.truthy (.str "female") = true from rfl]

/-- Witness for C4's theorem: explicit name/gender arguments, a non-empty
measurements dict and a response carrying `"second-id"`. -/
theorem avatar_id_rebinds_on_create_witness :
    create_avatar_from_measurements stBound ⟨Option.some ⟨Option.some "second-id"⟩⟩
        (.str "Bob") (.str "male") [("Height", .int 170)] =
      (Except.ok "second-id", { stBound with avatar_id := Option.some "second-id" },
       ["POST avatars/create/from-measurements"]) ∧
    create_empty_avatar stBound ⟨Option.some ⟨Option.some "second-id"⟩⟩ =
      (Except.ok ⟨Option.some "second-id"⟩,
       { stBound with avatar_id := Option.some "second-id" }) :=
  avatar_id_rebinds_on_create stBound ⟨Option.some ⟨Option.some "second-id"⟩⟩
    (.str "Bob") (.str "male") [("Height", .int 170)] "second-id"
    (by decide) (Or.inl (by decide)) (by decide) (by decide)

